import Mathlib

/-
Shallow embedding of the execution core of the vaul repository
(vaul/decorators.py and vaul/mcp.py), together with proofs of the
specification claims about it.

Time is modelled by the rationals (seconds); a handler invocation is
modelled by its observable outcome: either a value or a raised Python
exception (type name and message).  The retry loops of ToolCall.run and
ToolCall.async_run are embedded as fuel-indexed recursions over a stream
of per-attempt outcomes and per-attempt durations, returning both the
final result and the list of backoff sleeps performed.
-/

set_option autoImplicit false

deriving instance DecidableEq for Except

namespace Vaul

/-- Values produced or consumed by tool handlers. -/
inductive Value where
  | vstr : String → Value
  | vint : Int → Value
deriving DecidableEq, Repr

/-- A raised Python exception, identified by its type name and message;
str(e) on an exception yields its message. -/
structure Exc where
  ty : String
  msg : String
deriving DecidableEq, Repr

/-- Errors raised by the library code itself (as opposed to a handler). -/
inductive PyError where
  | valueError : String → PyError
  | runtimeError : String → PyError
deriving DecidableEq, Repr

/-- The policy state stored on a ToolCall by ToolCall.__init__
(vaul/decorators.py lines 154-170): the flags plus _max_timeout and
_max_backoff, which are None unless retry is set. -/
structure ToolCall where
  raise_for_exception : Bool
  retry : Bool
  concurrent : Bool
  max_timeout : Option ℚ
  max_backoff : Option ℚ
deriving DecidableEq, Repr

/-- ToolCall.__init__ (decorators.py lines 139-170): rejects
retry = True with raise_for_exception = False by raising ValueError,
otherwise records the policy, defaulting max_timeout to 60 and
max_backoff to 120 when retry is enabled and storing None otherwise. -/
def ToolCall.init (raise_for_exception : Bool) (retry : Bool)
    (max_timeout : Option ℚ) (max_backoff : Option ℚ) (concurrent : Bool) :
    Except PyError ToolCall :=
  if retry && !raise_for_exception then
    Except.error (PyError.valueError
      "If retry is True, raise_for_exception must also be True")
  else
    Except.ok
      { raise_for_exception := raise_for_exception
        retry := retry
        concurrent := concurrent
        max_timeout := if retry then some (max_timeout.getD 60) else none
        max_backoff := if retry then some (max_backoff.getD 120) else none }

/-- The try/except body shared by ToolCall.__call__ (decorators.py lines
209-219) and the non-retry branch of ToolCall.run (lines 242-249):
a handler outcome is returned as-is on success; a raised exception is
propagated when raise_for_exception is set and otherwise recovered into
the string str(e). -/
def ToolCall.callFn (tc : ToolCall) (outcome : Except Exc Value) :
    Except Exc Value :=
  match outcome with
  | Except.ok v => Except.ok v
  | Except.error e =>
      if tc.raise_for_exception then Except.error e
      else Except.ok (Value.vstr e.msg)

/-- The while-loop of ToolCall.run (decorators.py lines 251-266),
embedded over a stream of attempt outcomes and attempt durations.
clock is the monotonic time elapsed since start_time when attempt k
begins; fuel bounds the number of iterations (the Python loop is
unbounded).  Returns the result together with the list of backoff
sleeps performed, or none when fuel runs out. -/
def ToolCall.runLoop (tc : ToolCall) (attempts : ℕ → Except Exc Value)
    (dur : ℕ → ℚ) : ℕ → ℕ → ℚ → Option (Except Exc Value × List ℚ)
  | 0, _, _ => none
  | fuel + 1, k, clock =>
      match attempts k with
      | Except.ok v => some (Except.ok v, [])
      | Except.error e =>
          if tc.max_timeout.getD 0 ≤ clock + dur k then
            if tc.raise_for_exception then some (Except.error e, [])
            else some (Except.ok (Value.vstr e.msg), [])
          else
            (ToolCall.runLoop tc attempts dur fuel (k + 1)
                (clock + dur k + min (1 / 10 * 2 ^ k) (tc.max_backoff.getD 0))).map
              (fun rs =>
                (rs.1, min (1 / 10 * 2 ^ k) (tc.max_backoff.getD 0) :: rs.2))

/-- ToolCall.run (decorators.py lines 242-266): the non-retry branch is
a single guarded attempt; the retry branch enters the loop at attempt 0
with the clock at start_time. -/
def ToolCall.run (tc : ToolCall) (attempts : ℕ → Except Exc Value)
    (dur : ℕ → ℚ) (fuel : ℕ) : Option (Except Exc Value × List ℚ) :=
  if tc.retry then ToolCall.runLoop tc attempts dur fuel 0 0
  else some (tc.callFn (attempts 0), [])

/-- The while-loop of ToolCall.async_run (decorators.py lines 272-285):
identical to the run loop except that on timeout the original exception
is always re-raised (no raise_for_exception check). -/
def ToolCall.asyncRunLoop (tc : ToolCall) (attempts : ℕ → Except Exc Value)
    (dur : ℕ → ℚ) : ℕ → ℕ → ℚ → Option (Except Exc Value × List ℚ)
  | 0, _, _ => none
  | fuel + 1, k, clock =>
      match attempts k with
      | Except.ok v => some (Except.ok v, [])
      | Except.error e =>
          if tc.max_timeout.getD 0 ≤ clock + dur k then
            some (Except.error e, [])
          else
            (ToolCall.asyncRunLoop tc attempts dur fuel (k + 1)
                (clock + dur k + min (1 / 10 * 2 ^ k) (tc.max_backoff.getD 0))).map
              (fun rs =>
                (rs.1, min (1 / 10 * 2 ^ k) (tc.max_backoff.getD 0) :: rs.2))

/-- ToolCall.async_run (decorators.py lines 268-285). -/
def ToolCall.asyncRun (tc : ToolCall) (attempts : ℕ → Except Exc Value)
    (dur : ℕ → ℚ) (fuel : ℕ) : Option (Except Exc Value × List ℚ) :=
  if tc.retry then ToolCall.asyncRunLoop tc attempts dur fuel 0 0
  else some (attempts 0, [])

/-- Whether the wrapped handler is a coroutine function (non-blocking)
or an ordinary function (blocking); determined by
asyncio.iscoroutinefunction in the source. -/
inductive HandlerKind where
  | nonBlocking
  | blocking
deriving DecidableEq, Repr

/-- How ToolCall._async_execute dispatched the handler: awaited in place
on the caller's event loop, offloaded to a ThreadPoolExecutor worker via
run_in_executor, or invoked inline in the non-concurrent branch. -/
inductive ExecPath where
  | awaitedInline
  | offloadedToPool
  | ranInline
deriving DecidableEq, Repr

/-- ToolCall._async_execute (decorators.py lines 287-300): when
concurrent is set, a coroutine handler is awaited directly and a
blocking handler is submitted to a worker pool via run_in_executor;
otherwise the handler runs inline (awaited in place if it returned a
coroutine).  The surrounding try/except recovers exceptions into str(e)
unless raise_for_exception is set.  Returns the dispatch path taken
together with the result. -/
def ToolCall.asyncExecute (tc : ToolCall) (kind : HandlerKind)
    (outcome : Except Exc Value) : ExecPath × Except Exc Value :=
  let path :=
    if tc.concurrent then
      match kind with
      | HandlerKind.nonBlocking => ExecPath.awaitedInline
      | HandlerKind.blocking => ExecPath.offloadedToPool
    else ExecPath.ranInline
  match outcome with
  | Except.ok v => (path, Except.ok v)
  | Except.error e =>
      (path,
        if tc.raise_for_exception then Except.error e
        else Except.ok (Value.vstr e.msg))

/-- A ToolCall successfully constructed with retry enabled always has
raise_for_exception set: the ValueError guard in __init__ makes the
invariant retry ⇒ raise_for_exception hold on every constructed value. -/
theorem ToolCall.init_retry_implies_raise (r rt : Bool) (mt mb : Option ℚ)
    (c : Bool) (tc : ToolCall) (h : ToolCall.init r rt mt mb c = Except.ok tc)
    (hrt : tc.retry = true) : tc.raise_for_exception = true := by
  unfold ToolCall.init at h
  split at h
  · exact absurd h (by simp)
  · rename_i hcond
    cases h
    simp only at hrt
    subst hrt
    simpa using hcond

/-- Retry tools have retry = true on the constructed value. -/
theorem ToolCall.init_retry_field (r : Bool) (mt mb : Option ℚ)
    (c : Bool) (tc : ToolCall) (h : ToolCall.init r true mt mb c = Except.ok tc) :
    tc.retry = true := by
  unfold ToolCall.init at h
  split at h
  · exact absurd h (by simp)
  · cases h; rfl

/-- C1: constructing a ToolCall with retry = true and
raise_for_exception = false raises ValueError at construction, for every
choice of the remaining policy parameters, and every successfully
constructed retry-enabled ToolCall has raise_for_exception set: the
invariant is enforced at registration, never deferred to call time. -/
theorem toolCall_init_rejects_retry_without_raise :
    (∀ (mt mb : Option ℚ) (c : Bool),
      ToolCall.init false true mt mb c =
        Except.error (PyError.valueError
          "If retry is True, raise_for_exception must also be True")) ∧
    (∀ (r : Bool) (mt mb : Option ℚ) (c : Bool) (tc : ToolCall),
      ToolCall.init r true mt mb c = Except.ok tc →
      tc.raise_for_exception = true) := by
  constructor
  · intro mt mb c; rfl
  · intro r mt mb c tc h
    exact ToolCall.init_retry_implies_raise r true mt mb c tc h
      (ToolCall.init_retry_field r mt mb c tc h)

/-- Witness for C1 at a concrete policy. -/
theorem toolCall_init_rejects_retry_without_raise_witness :
    ToolCall.init false true none none false =
      Except.error (PyError.valueError
        "If retry is True, raise_for_exception must also be True") ∧
    (⟨true, true, false, some 60, some 120⟩ : ToolCall).raise_for_exception
      = true :=
  ⟨toolCall_init_rejects_retry_without_raise.1 none none false,
   toolCall_init_rejects_retry_without_raise.2 true none none false
     ⟨true, true, false, some 60, some 120⟩ rfl⟩

/-- C2: for a retry-enabled tool (hence raise_for_exception = true by the
construction invariant), when attempt k raises e and the elapsed
wall-clock time at the failure check is at least max_timeout, both the
run loop and the async_run loop return the original exception e itself —
same type and message, never wrapped or replaced — with no further
backoff sleeps. -/
theorem retry_timeout_reraises_original_exception
    (r : Bool) (mt mb : Option ℚ) (c : Bool) (tc : ToolCall)
    (hinit : ToolCall.init r true mt mb c = Except.ok tc)
    (attempts : ℕ → Except Exc Value) (dur : ℕ → ℚ)
    (fuel k : ℕ) (clock : ℚ) (e : Exc)
    (hfail : attempts k = Except.error e)
    (htime : tc.max_timeout.getD 0 ≤ clock + dur k) :
    ToolCall.runLoop tc attempts dur (fuel + 1) k clock
      = some (Except.error e, []) ∧
    ToolCall.asyncRunLoop tc attempts dur (fuel + 1) k clock
      = some (Except.error e, []) := by
  have hre : tc.raise_for_exception = true :=
    ToolCall.init_retry_implies_raise r true mt mb c tc hinit
      (ToolCall.init_retry_field r mt mb c tc hinit)
  constructor
  · simp [ToolCall.runLoop, hfail, htime, hre]
  · simp [ToolCall.asyncRunLoop, hfail, htime]

/-- Witness for C2: a tool built with defaults (max_timeout 60) whose
attempt takes 61 time-units and fails gets the original exception back. -/
theorem retry_timeout_reraises_original_exception_witness :
    ToolCall.runLoop ⟨true, true, false, some 60, some 120⟩
        (fun _ => Except.error ⟨"ValueError", "boom"⟩) (fun _ => 61) 1 0 0
      = some (Except.error ⟨"ValueError", "boom"⟩, []) ∧
    ToolCall.asyncRunLoop ⟨true, true, false, some 60, some 120⟩
        (fun _ => Except.error ⟨"ValueError", "boom"⟩) (fun _ => 61) 1 0 0
      = some (Except.error ⟨"ValueError", "boom"⟩, []) :=
  retry_timeout_reraises_original_exception true none none false
    ⟨true, true, false, some 60, some 120⟩ rfl
    (fun _ => Except.error ⟨"ValueError", "boom"⟩) (fun _ => 61) 0 0 0
    ⟨"ValueError", "boom"⟩ rfl (by norm_num)

/-- The sleeps performed by the run loop starting at attempt k form the
capped geometric sequence min(0.1·2^(k+i), max_backoff). -/
theorem runLoop_sleeps_geometric (tc : ToolCall)
    (attempts : ℕ → Except Exc Value) (dur : ℕ → ℚ) :
    ∀ (fuel k : ℕ) (clock : ℚ) (res : Except Exc Value) (sleeps : List ℚ),
      ToolCall.runLoop tc attempts dur fuel k clock = some (res, sleeps) →
      sleeps = (List.range sleeps.length).map
        (fun i => min (1 / 10 * 2 ^ (k + i)) (tc.max_backoff.getD 0)) := by
  intro fuel
  induction fuel with
  | zero => intro k clock res sleeps h; simp [ToolCall.runLoop] at h
  | succ n ih =>
      intro k clock res sleeps h
      rw [ToolCall.runLoop] at h
      split at h
      · simp only [Option.some.injEq, Prod.mk.injEq] at h
        simp [← h.2]
      · split at h
        · split at h
          · simp only [Option.some.injEq, Prod.mk.injEq] at h
            simp [← h.2]
          · simp only [Option.some.injEq, Prod.mk.injEq] at h
            simp [← h.2]
        · cases hrec : ToolCall.runLoop tc attempts dur n (k + 1)
              (clock + dur k +
                min (1 / 10 * 2 ^ k) (tc.max_backoff.getD 0)) with
          | none => rw [hrec] at h; simp at h
          | some rs =>
              rw [hrec] at h
              simp only [Option.map_some', Option.some.injEq,
                Prod.mk.injEq] at h
              have htail := ih (k + 1)
                (clock + dur k + min (1 / 10 * 2 ^ k) (tc.max_backoff.getD 0))
                rs.1 rs.2 (by rw [hrec])
              rw [← h.2]
              rw [List.length_cons, List.range_succ_eq_map, List.map_cons,
                List.map_map]
              congr 1
              conv_lhs => rw [htail]
              apply List.map_congr_left
              intro a _
              have hka : k + 1 + a = k + (a + 1) := by omega
              simp [hka]

/-- The sleeps performed by the async_run loop starting at attempt k form
the same capped geometric sequence. -/
theorem asyncRunLoop_sleeps_geometric (tc : ToolCall)
    (attempts : ℕ → Except Exc Value) (dur : ℕ → ℚ) :
    ∀ (fuel k : ℕ) (clock : ℚ) (res : Except Exc Value) (sleeps : List ℚ),
      ToolCall.asyncRunLoop tc attempts dur fuel k clock = some (res, sleeps) →
      sleeps = (List.range sleeps.length).map
        (fun i => min (1 / 10 * 2 ^ (k + i)) (tc.max_backoff.getD 0)) := by
  intro fuel
  induction fuel with
  | zero => intro k clock res sleeps h; simp [ToolCall.asyncRunLoop] at h
  | succ n ih =>
      intro k clock res sleeps h
      rw [ToolCall.asyncRunLoop] at h
      split at h
      · simp only [Option.some.injEq, Prod.mk.injEq] at h
        simp [← h.2]
      · split at h
        · simp only [Option.some.injEq, Prod.mk.injEq] at h
          simp [← h.2]
        · cases hrec : ToolCall.asyncRunLoop tc attempts dur n (k + 1)
              (clock + dur k +
                min (1 / 10 * 2 ^ k) (tc.max_backoff.getD 0)) with
          | none => rw [hrec] at h; simp at h
          | some rs =>
              rw [hrec] at h
              simp only [Option.map_some', Option.some.injEq,
                Prod.mk.injEq] at h
              have htail := ih (k + 1)
                (clock + dur k + min (1 / 10 * 2 ^ k) (tc.max_backoff.getD 0))
                rs.1 rs.2 (by rw [hrec])
              rw [← h.2]
              rw [List.length_cons, List.range_succ_eq_map, List.map_cons,
                List.map_map]
              congr 1
              conv_lhs => rw [htail]
              apply List.map_congr_left
              intro a _
              have hka : k + 1 + a = k + (a + 1) := by omega
              simp [hka]

/-- C3: for a retry-enabled tool, a successful attempt returns
immediately with no delay (in both the run loop and the async_run loop),
and every sleeps list produced by run or async_run is exactly the
canonical capped geometric sequence: the delay slept after the i-th
failed attempt is min(0.1 · 2^i, max_backoff), with base 0.1 fixed for
all policies. -/
theorem retry_backoff_is_capped_geometric
    (r : Bool) (mt mb : Option ℚ) (c : Bool) (tc : ToolCall)
    (hinit : ToolCall.init r true mt mb c = Except.ok tc) :
    (∀ (attempts : ℕ → Except Exc Value) (dur : ℕ → ℚ) (fuel k : ℕ)
        (clock : ℚ) (v : Value), attempts k = Except.ok v →
        ToolCall.runLoop tc attempts dur (fuel + 1) k clock
          = some (Except.ok v, []) ∧
        ToolCall.asyncRunLoop tc attempts dur (fuel + 1) k clock
          = some (Except.ok v, [])) ∧
    (∀ (attempts : ℕ → Except Exc Value) (dur : ℕ → ℚ) (fuel : ℕ)
        (res : Except Exc Value) (sleeps : List ℚ),
        ToolCall.run tc attempts dur fuel = some (res, sleeps) →
        sleeps = (List.range sleeps.length).map
          (fun i => min (1 / 10 * 2 ^ i) (tc.max_backoff.getD 0))) ∧
    (∀ (attempts : ℕ → Except Exc Value) (dur : ℕ → ℚ) (fuel : ℕ)
        (res : Except Exc Value) (sleeps : List ℚ),
        ToolCall.asyncRun tc attempts dur fuel = some (res, sleeps) →
        sleeps = (List.range sleeps.length).map
          (fun i => min (1 / 10 * 2 ^ i) (tc.max_backoff.getD 0))) := by
  have hrt : tc.retry = true := ToolCall.init_retry_field r mt mb c tc hinit
  refine ⟨?_, ?_, ?_⟩
  · intro attempts dur fuel k clock v h
    constructor
    · rw [ToolCall.runLoop, h]
    · rw [ToolCall.asyncRunLoop, h]
  · intro attempts dur fuel res sleeps h
    rw [ToolCall.run, if_pos (by rw [hrt])] at h
    have := runLoop_sleeps_geometric tc attempts dur fuel 0 0 res sleeps h
    simpa using this
  · intro attempts dur fuel res sleeps h
    rw [ToolCall.asyncRun, if_pos (by rw [hrt])] at h
    have := asyncRunLoop_sleeps_geometric tc attempts dur fuel 0 0 res sleeps h
    simpa using this

/-- Attempt stream that fails twice then succeeds, used by the backoff
witness. -/
def attemptsFailTwice : ℕ → Except Exc Value :=
  fun k => if k < 2 then Except.error ⟨"RuntimeError", "down"⟩
    else Except.ok (Value.vint 1)

/-- Attempt durations that are all zero, used by the backoff witness. -/
def durZero : ℕ → ℚ := fun _ => 0

/-- Witness for C3: a tool with max_backoff = 1/5 failing twice then
succeeding sleeps exactly [0.1, 0.2] — the geometric sequence with the
second delay capped at max_backoff. -/
theorem retry_backoff_is_capped_geometric_witness :
    ToolCall.init true true (some 60) (some (1 / 5)) false
      = Except.ok ⟨true, true, false, some 60, some (1 / 5)⟩ ∧
    ([1 / 10, 1 / 5] : List ℚ)
      = (List.range ([(1 : ℚ) / 10, 1 / 5].length)).map
          (fun i => min (1 / 10 * 2 ^ i)
            ((⟨true, true, false, some 60, some (1 / 5)⟩ :
              ToolCall).max_backoff.getD 0)) :=
  ⟨rfl,
   (retry_backoff_is_capped_geometric true (some 60) (some (1 / 5)) false
      ⟨true, true, false, some 60, some (1 / 5)⟩ rfl).2.1
     attemptsFailTwice durZero 5 (Except.ok (Value.vint 1)) [1 / 10, 1 / 5]
     (by norm_num [ToolCall.run, ToolCall.runLoop, attemptsFailTwice,
       durZero, min_def])⟩

/-- C4: in ToolCall._async_execute with policy.concurrent set, a
coroutine (non-blocking) handler is awaited directly on the caller's
event loop — never offloaded to a worker thread — while a blocking
handler is submitted to the worker pool via run_in_executor. -/
theorem concurrent_dispatch_paths (tc : ToolCall)
    (hc : tc.concurrent = true) (outcome : Except Exc Value) :
    (tc.asyncExecute HandlerKind.nonBlocking outcome).1
      = ExecPath.awaitedInline ∧
    (tc.asyncExecute HandlerKind.blocking outcome).1
      = ExecPath.offloadedToPool := by
  cases outcome <;> simp [ToolCall.asyncExecute, hc]

/-- Witness for C4 at a concrete concurrent policy. -/
theorem concurrent_dispatch_paths_witness :
    ((⟨false, false, true, none, none⟩ : ToolCall).asyncExecute
        HandlerKind.nonBlocking (Except.ok (Value.vint 0))).1
      = ExecPath.awaitedInline ∧
    ((⟨false, false, true, none, none⟩ : ToolCall).asyncExecute
        HandlerKind.blocking (Except.ok (Value.vint 0))).1
      = ExecPath.offloadedToPool :=
  concurrent_dispatch_paths ⟨false, false, true, none, none⟩ rfl
    (Except.ok (Value.vint 0))

/-- C5: for a tool with retry disabled, both __call__ (callFn) and run
recover a raised exception into the string str(e) when
raise_for_exception is false, propagate it unchanged when
raise_for_exception is true, and return a non-raising handler's result
as-is. -/
theorem no_retry_error_recovery (tc : ToolCall) (hre : tc.retry = false)
    (attempts : ℕ → Except Exc Value) (dur : ℕ → ℚ) (fuel : ℕ)
    (e : Exc) (v : Value) :
    (attempts 0 = Except.error e → tc.raise_for_exception = false →
      ToolCall.run tc attempts dur fuel
        = some (Except.ok (Value.vstr e.msg), []) ∧
      tc.callFn (Except.error e) = Except.ok (Value.vstr e.msg)) ∧
    (attempts 0 = Except.error e → tc.raise_for_exception = true →
      ToolCall.run tc attempts dur fuel = some (Except.error e, []) ∧
      tc.callFn (Except.error e) = Except.error e) ∧
    (attempts 0 = Except.ok v →
      ToolCall.run tc attempts dur fuel = some (Except.ok v, []) ∧
      tc.callFn (Except.ok v) = Except.ok v) := by
  refine ⟨?_, ?_, ?_⟩
  · intro h1 h2
    constructor <;> simp [ToolCall.run, ToolCall.callFn, hre, h1, h2]
  · intro h1 h2
    constructor <;> simp [ToolCall.run, ToolCall.callFn, hre, h1, h2]
  · intro h1
    constructor <;> simp [ToolCall.run, ToolCall.callFn, hre, h1]

/-- Witness for C5: the default policy (retry and raise_for_exception
both false) turns a TypeError into its message string. -/
theorem no_retry_error_recovery_witness :
    ToolCall.run ⟨false, false, false, none, none⟩
        (fun _ => Except.error ⟨"TypeError", "bad"⟩) (fun _ => 0) 1
      = some (Except.ok (Value.vstr "bad"), []) ∧
    ToolCall.callFn ⟨false, false, false, none, none⟩
        (Except.error ⟨"TypeError", "bad"⟩)
      = Except.ok (Value.vstr "bad") :=
  (no_retry_error_recovery ⟨false, false, false, none, none⟩ rfl
      (fun _ => Except.error ⟨"TypeError", "bad"⟩) (fun _ => 0) 1
      ⟨"TypeError", "bad"⟩ (Value.vint 0)).1 rfl rfl

/-! Embedding of vaul/mcp.py: the persistent SSE pool entry, the
module-level pool registry, and the hidden-context argument merge. -/

/-- Header set identifying a remote endpoint together with its URL. -/
abbrev Headers := List (String × String)

/-- Environment facts that decide whether pool construction succeeds:
whether the readiness event was set within the blocking wait, and
whether the transport/session handshake in _open succeeded (_init_ok). -/
structure ConnEnv where
  readyInTime : Bool
  initOk : Bool
deriving DecidableEq, Repr

/-- Observable state of a _PersistentSSEPool entry: endpoint identity,
the _closed flag, how many times the underlying shutdown coroutine has
run, and how many work items have been submitted to its private loop
via run_coroutine_threadsafe. -/
structure Pool where
  url : String
  headers : Headers
  closed : Bool
  shutdownCount : ℕ
  scheduled : ℕ
deriving DecidableEq, Repr

/-- _PersistentSSEPool.__init__ (mcp.py lines 142-161): spawns the loop
thread and blocks on the readiness event; on wait timeout or handshake
failure the entry tears itself down and a RuntimeError is raised, so no
entry value is produced; on success the entry starts un-closed, with no
shutdowns performed and nothing scheduled. -/
def PersistentSSEPool.init (url : String) (headers : Headers)
    (env : ConnEnv) : Except PyError Pool :=
  if !env.readyInTime then
    Except.error (PyError.runtimeError "MCP SSE pool initialization timed out")
  else if !env.initOk then
    Except.error (PyError.runtimeError "MCP SSE pool failed to initialize")
  else
    Except.ok
      { url := url, headers := headers, closed := false,
        shutdownCount := 0, scheduled := 0 }

/-- Work items bridged onto the pool's private loop. -/
inductive ScheduledWork where
  | callTool (name : String) (arguments : List (String × Value))
  | listTools
deriving DecidableEq, Repr

/-- _PersistentSSEPool.call_tool_async (mcp.py lines 194-199): raises
RuntimeError immediately when the closed flag is set, leaving the pool
untouched; otherwise submits the _call_tool coroutine to the loop. -/
def Pool.callToolAsync (p : Pool) (name : String)
    (arguments : List (String × Value)) :
    Except PyError ScheduledWork × Pool :=
  if p.closed then
    (Except.error (PyError.runtimeError "MCP connection is closed"), p)
  else
    (Except.ok (ScheduledWork.callTool name arguments),
      { p with scheduled := p.scheduled + 1 })

/-- _PersistentSSEPool.list_tools_async (mcp.py lines 201-206). -/
def Pool.listToolsAsync (p : Pool) : Except PyError ScheduledWork × Pool :=
  if p.closed then
    (Except.error (PyError.runtimeError "MCP connection is closed"), p)
  else
    (Except.ok ScheduledWork.listTools,
      { p with scheduled := p.scheduled + 1 })

/-- _PersistentSSEPool.close (mcp.py lines 208-227): returns immediately
when the closed flag is already set (checked again under _close_lock);
otherwise runs the shutdown coroutine on the loop, joins the thread and
sets the closed flag.  The shutdown counter records each run of the
shutdown coroutine. -/
def Pool.close (p : Pool) : Pool :=
  if p.closed then p
  else { p with closed := true, shutdownCount := p.shutdownCount + 1 }

/-- The module-level _persistent_pools dict, keyed by URL. -/
def Registry := String → Option Pool

/-- Dict assignment _persistent_pools\x5burl\x5d = pool. -/
def Registry.set (reg : Registry) (url : String) (p : Pool) : Registry :=
  fun k => if k = url then some p else reg k

/-- Dict removal _persistent_pools.pop(url, None). -/
def Registry.pop (reg : Registry) (url : String) : Registry :=
  fun k => if k = url then none else reg k

/-- _get_pool (mcp.py lines 230-238): under the registry lock, looks up
the URL; when absent, or present with its closed flag set (the closed
entry being popped first), a fresh entry is constructed and registered.
A RuntimeError from construction propagates after any pop already
performed.  Returns the result together with the registry afterwards. -/
def getPool (reg : Registry) (url : String) (headers : Headers)
    (env : ConnEnv) : Except PyError Pool × Registry :=
  match reg url with
  | some pool =>
      if pool.closed then
        match PersistentSSEPool.init url headers env with
        | Except.error e => (Except.error e, Registry.pop reg url)
        | Except.ok p =>
            (Except.ok p, Registry.set (Registry.pop reg url) url p)
      else (Except.ok pool, reg)
  | none =>
      match PersistentSSEPool.init url headers env with
      | Except.error e => (Except.error e, reg)
      | Except.ok p => (Except.ok p, Registry.set reg url p)

/-- close_mcp_url (mcp.py lines 241-245): pops the URL's entry from the
registry and, when one was present, closes it.  The second component
counts the underlying shutdowns performed by this call. -/
def closeMcpUrl (reg : Registry) (url : String) : Registry × ℕ :=
  match reg url with
  | some pool =>
      (Registry.pop reg url,
        (Pool.close pool).shutdownCount - pool.shutdownCount)
  | none => (Registry.pop reg url, 0)

/-- A successfully constructed pool entry is exactly the fresh un-closed
entry for its endpoint. -/
theorem PersistentSSEPool.init_ok (url : String) (headers : Headers)
    (env : ConnEnv) (p : Pool)
    (h : PersistentSSEPool.init url headers env = Except.ok p) :
    p = ⟨url, headers, false, 0, 0⟩ := by
  unfold PersistentSSEPool.init at h
  split at h
  · exact absurd h (by simp)
  · split at h
    · exact absurd h (by simp)
    · cases h; rfl

/-- Python dict lookup d.get(key) on a dict represented by its items. -/
def dictGet {α : Type} : List (String × α) → String → Option α
  | [], _ => none
  | (k, v) :: rest, key => if key = k then some v else dictGet rest key

/-- Python dict assignment d with key set to v: replaces the existing
entry in place or appends a new one. -/
def dictSet {α : Type} : List (String × α) → String → α → List (String × α)
  | [], key, v => [(key, v)]
  | (k, w) :: rest, key, v =>
      if key = k then (k, v) :: rest else (k, w) :: dictSet rest key v

/-- The Python dict display that copies a and then assigns every item of
b in order — the meaning of merging two dicts with b spread last. -/
def dictMerge {α : Type} (a b : List (String × α)) : List (String × α) :=
  b.foldl (fun acc kv => dictSet acc kv.1 kv.2) a

/-- The payload sent to the remote session by the per-tool call closure
created in tools_from_mcp_url (mcp.py lines 279-285): the tool name and
the merge of the hidden context under the caller kwargs. -/
def toolsFromMcpUrlPayload (hidden : List (String × Value)) (name : String)
    (kwargs : List (String × Value)) : String × List (String × Value) :=
  (name, dictMerge hidden kwargs)

/-- Assigning key k makes a later lookup of k find the new value. -/
theorem dictGet_dictSet_self {α : Type} (l : List (String × α)) (k : String)
    (v : α) : dictGet (dictSet l k v) k = some v := by
  induction l with
  | nil => simp [dictSet, dictGet]
  | cons kv rest ih =>
      obtain ⟨k', w⟩ := kv
      by_cases h : k = k'
      · simp [dictSet, dictGet, h]
      · simp [dictSet, dictGet, h, ih]

/-- Assigning key k leaves lookups of other keys unchanged. -/
theorem dictGet_dictSet_ne {α : Type} (l : List (String × α)) (k k' : String)
    (v : α) (h : k' ≠ k) : dictGet (dictSet l k v) k' = dictGet l k' := by
  induction l with
  | nil => simp [dictSet, dictGet, h]
  | cons kv rest ih =>
      obtain ⟨k0, w⟩ := kv
      by_cases hk : k = k0
      · subst hk
        simp [dictSet, dictGet, h]
      · by_cases hk' : k' = k0
        · simp [dictSet, dictGet, hk, hk']
        · simp [dictSet, dictGet, hk, hk', ih]

/-- Merging a dict whose keys do not include k does not affect the
lookup of k. -/
theorem dictGet_dictMerge_of_not_mem {α : Type} (b : List (String × α)) :
    ∀ (a : List (String × α)) (k : String), k ∉ b.map Prod.fst →
      dictGet (dictMerge a b) k = dictGet a k := by
  induction b with
  | nil => intro a k _; rfl
  | cons kv rest ih =>
      intro a k hk
      obtain ⟨k', v⟩ := kv
      simp only [List.map_cons, List.mem_cons] at hk
      push_neg at hk
      have : dictMerge a ((k', v) :: rest) = dictMerge (dictSet a k' v) rest :=
        rfl
      rw [this, ih (dictSet a k' v) k hk.2,
        dictGet_dictSet_ne a k' k v hk.1]

/-- C9: the arguments a remote tool created by tools_from_mcp_url sends
to the session are the union of the hidden context and the caller
kwargs, with the caller's value winning on every conflicting key: a key
present in kwargs resolves to the kwargs value, and a key absent from
kwargs resolves to its hidden-context value. -/
theorem hidden_context_merge_caller_precedence
    (hidden kwargs : List (String × Value)) (name : String) (k : String)
    (hnd : (kwargs.map Prod.fst).Nodup) :
    (∀ v, dictGet kwargs k = some v →
      dictGet (toolsFromMcpUrlPayload hidden name kwargs).2 k = some v) ∧
    (dictGet kwargs k = none →
      dictGet (toolsFromMcpUrlPayload hidden name kwargs).2 k
        = dictGet hidden k) := by
  unfold toolsFromMcpUrlPayload
  simp only
  induction kwargs generalizing hidden with
  | nil =>
      constructor
      · intro v hv; simp [dictGet] at hv
      · intro _; rfl
  | cons kv rest ih =>
      obtain ⟨k', v'⟩ := kv
      simp only [List.map_cons, List.nodup_cons] at hnd
      have hmerge : dictMerge hidden ((k', v') :: rest)
          = dictMerge (dictSet hidden k' v') rest := rfl
      constructor
      · intro v hv
        by_cases hk : k = k'
        · subst hk
          simp only [dictGet, if_pos rfl] at hv
          cases hv
          rw [hmerge, dictGet_dictMerge_of_not_mem rest (dictSet hidden k v')
            k hnd.1, dictGet_dictSet_self]
        · simp only [dictGet, if_neg hk] at hv
          rw [hmerge]
          exact (ih (dictSet hidden k' v') hnd.2).1 v hv
      · intro hv
        by_cases hk : k = k'
        · subst hk
          simp [dictGet] at hv
        · simp only [dictGet, if_neg hk] at hv
          rw [hmerge, (ih (dictSet hidden k' v') hnd.2).2 hv,
            dictGet_dictSet_ne hidden k' k v' hk]

/-- Witness for C9: hidden context a=1, b=2 merged with caller kwargs
b=3 sends b=3 (caller wins) and keeps a=1 (hidden default). -/
theorem hidden_context_merge_caller_precedence_witness :
    dictGet (toolsFromMcpUrlPayload
        [("a", Value.vint 1), ("b", Value.vint 2)] "t"
        [("b", Value.vint 3)]).2 "b" = some (Value.vint 3) ∧
    dictGet (toolsFromMcpUrlPayload
        [("a", Value.vint 1), ("b", Value.vint 2)] "t"
        [("b", Value.vint 3)]).2 "a"
      = dictGet [("a", Value.vint 1), ("b", Value.vint 2)] "a" :=
  ⟨(hidden_context_merge_caller_precedence
      [("a", Value.vint 1), ("b", Value.vint 2)] [("b", Value.vint 3)]
      "t" "b" (by decide)).1 (Value.vint 3) (by decide),
   (hidden_context_merge_caller_precedence
      [("a", Value.vint 1), ("b", Value.vint 2)] [("b", Value.vint 3)]
      "t" "a" (by decide)).2 (by decide)⟩

/-- C6: _get_pool never hands out an entry whose closed flag is set —
every successfully returned pool is un-closed — and when the registered
entry for the URL is observed closed (and construction succeeds), the
closed entry is evicted and a freshly constructed entry both replaces it
in the registry and is returned. -/
theorem getPool_never_returns_closed (reg : Registry) (url : String)
    (headers : Headers) (env : ConnEnv) :
    (∀ p, (getPool reg url headers env).1 = Except.ok p →
      p.closed = false) ∧
    (∀ q, reg url = some q → q.closed = true →
      env.readyInTime = true → env.initOk = true →
      (getPool reg url headers env).1
        = Except.ok ⟨url, headers, false, 0, 0⟩ ∧
      (getPool reg url headers env).2 url
        = some ⟨url, headers, false, 0, 0⟩) := by
  constructor
  · intro p hp
    cases hreg : reg url with
    | none =>
        cases hinit : PersistentSSEPool.init url headers env with
        | error e => simp [getPool, hreg, hinit] at hp
        | ok q =>
            simp only [getPool, hreg, hinit, Except.ok.injEq] at hp
            rw [← hp, PersistentSSEPool.init_ok url headers env q hinit]
    | some pool =>
        by_cases hcl : pool.closed
        · cases hinit : PersistentSSEPool.init url headers env with
          | error e => simp [getPool, hreg, hinit, hcl] at hp
          | ok q =>
              simp only [getPool, hreg, hinit, if_pos hcl,
                Except.ok.injEq] at hp
              rw [← hp, PersistentSSEPool.init_ok url headers env q hinit]
        · simp only [getPool, hreg, if_neg hcl, Except.ok.injEq] at hp
          rw [← hp]
          exact Bool.not_eq_true pool.closed |>.mp hcl
  · intro q hreg hcl hready hinitok
    have hinit : PersistentSSEPool.init url headers env
        = Except.ok ⟨url, headers, false, 0, 0⟩ := by
      unfold PersistentSSEPool.init
      rw [hready, hinitok]
      rfl
    constructor
    · simp [getPool, hreg, hcl, hinit]
    · simp [getPool, hreg, hcl, hinit, Registry.set]

/-- Registry holding only a closed entry registered under "u", used by
the witnesses and the C8 counterexample. -/
def regWithClosedU : Registry :=
  Registry.set (fun _ => none) "u" ⟨"u", [], true, 1, 0⟩

/-- Witness for C6: a registered closed entry under "u" is replaced by a
fresh entry when the environment lets construction succeed. -/
theorem getPool_never_returns_closed_witness :
    (getPool regWithClosedU "u" [] ⟨true, true⟩).1
      = Except.ok ⟨"u", [], false, 0, 0⟩ ∧
    (getPool regWithClosedU "u" [] ⟨true, true⟩).2 "u"
      = some ⟨"u", [], false, 0, 0⟩ :=
  (getPool_never_returns_closed regWithClosedU "u" [] ⟨true, true⟩).2
    ⟨"u", [], true, 1, 0⟩ (by decide) rfl rfl rfl

/-- C7: closing a pool entry is idempotent — any number of close calls
equals one — the underlying shutdown runs exactly once for an entry
that was open, every call returns (cleanly) with no error in the model,
and at the registry level close_mcp_url performs one shutdown on a
registered open entry while an immediate second close_mcp_url performs
none. -/
theorem pool_close_idempotent_shutdown_once (p : Pool) (reg : Registry)
    (url : String) :
    Pool.close (Pool.close p) = Pool.close p ∧
    (∀ n : ℕ, Pool.close^[n + 1] p = Pool.close p) ∧
    (p.closed = false →
      (Pool.close p).shutdownCount = p.shutdownCount + 1 ∧
      (Pool.close (Pool.close p)).shutdownCount = p.shutdownCount + 1) ∧
    (reg url = some p → p.closed = false →
      (closeMcpUrl reg url).2 = 1 ∧
      (closeMcpUrl (closeMcpUrl reg url).1 url).2 = 0) := by
  have hidem : Pool.close (Pool.close p) = Pool.close p := by
    by_cases hc : p.closed <;> simp [Pool.close, hc]
  refine ⟨hidem, ?_, ?_, ?_⟩
  · intro n
    induction n with
    | zero => simp
    | succ m ih => rw [Function.iterate_succ_apply', ih, hidem]
  · intro hc
    constructor <;> simp [Pool.close, hc]
  · intro hreg hc
    constructor
    · simp [closeMcpUrl, hreg, Pool.close, hc]
    · have h1 : (closeMcpUrl reg url).1 = Registry.pop reg url := by
        simp [closeMcpUrl, hreg]
      rw [h1]
      simp [closeMcpUrl, Registry.pop]

/-- Registry holding one open entry under "u", used by the C7 witness. -/
def regWithOpenU : Registry :=
  Registry.set (fun _ => none) "u" ⟨"u", [], false, 0, 0⟩

/-- Witness for C7: closing the endpoint "u" twice in a row performs the
shutdown once on the first call and zero times on the second. -/
theorem pool_close_idempotent_shutdown_once_witness :
    (closeMcpUrl regWithOpenU "u").2 = 1 ∧
    (closeMcpUrl (closeMcpUrl regWithOpenU "u").1 "u").2 = 0 :=
  (pool_close_idempotent_shutdown_once ⟨"u", [], false, 0, 0⟩
      regWithOpenU "u").2.2.2 (by decide) rfl

/-- C8 counterexample: with a closed entry registered under "u" and an
environment in which construction fails, _get_pool raises the explicit
initialization RuntimeError but the registry map is NOT left unchanged —
the closed entry has been evicted — refuting the claim as stated. -/
theorem getPool_init_failure_registry_changed_counterexample :
    (getPool regWithClosedU "u" [] ⟨false, false⟩).1
      = Except.error
          (PyError.runtimeError "MCP SSE pool initialization timed out") ∧
    ¬((getPool regWithClosedU "u" [] ⟨false, false⟩).2 = regWithClosedU) := by
  constructor
  · decide
  · intro h
    have h2 : (getPool regWithClosedU "u" [] ⟨false, false⟩).2 "u"
        = regWithClosedU "u" := congrFun h "u"
    exact absurd h2 (by decide)

/-- C8 (amended): when pool construction fails — the readiness wait
timed out or the handshake did not succeed — and the URL was either
unregistered or registered to a closed entry, _get_pool raises an
explicit initialization RuntimeError, the failed entry is never
registered under its endpoint key, and the registry is unchanged at
every other key (only a previously registered closed entry may have
been evicted). -/
theorem getPool_init_failure_never_registers (reg : Registry)
    (url : String) (headers : Headers) (env : ConnEnv)
    (henv : env.readyInTime = false ∨ env.initOk = false)
    (hmiss : reg url = none ∨ ∃ q, reg url = some q ∧ q.closed = true) :
    (∃ msg, (getPool reg url headers env).1
        = Except.error (PyError.runtimeError msg)) ∧
    (getPool reg url headers env).2 url = none ∧
    (∀ u, u ≠ url → (getPool reg url headers env).2 u = reg u) := by
  have hinit : ∃ msg, PersistentSSEPool.init url headers env
      = Except.error (PyError.runtimeError msg) := by
    unfold PersistentSSEPool.init
    cases henv with
    | inl h =>
        exact ⟨"MCP SSE pool initialization timed out", by rw [h]; rfl⟩
    | inr h =>
        cases hready : env.readyInTime with
        | false => exact ⟨"MCP SSE pool initialization timed out", by rfl⟩
        | true => exact ⟨"MCP SSE pool failed to initialize", by rw [h]; rfl⟩
  obtain ⟨msg, hinit⟩ := hinit
  cases hmiss with
  | inl habs =>
      refine ⟨⟨msg, ?_⟩, ?_, ?_⟩
      · simp [getPool, habs, hinit]
      · simp [getPool, habs, hinit]
      · intro u _; simp [getPool, habs, hinit]
  | inr hq =>
      obtain ⟨q, hreg, hcl⟩ := hq
      refine ⟨⟨msg, ?_⟩, ?_, ?_⟩
      · simp [getPool, hreg, hcl, hinit]
      · simp [getPool, hreg, hcl, hinit, Registry.pop]
      · intro u hu
        simp [getPool, hreg, hcl, hinit, Registry.pop, hu]

/-- Witness for C8 (amended) at the counterexample state: the error is
raised, "u" is left unregistered, and other keys are untouched. -/
theorem getPool_init_failure_never_registers_witness :
    (∃ msg, (getPool regWithClosedU "u" [] ⟨false, false⟩).1
        = Except.error (PyError.runtimeError msg)) ∧
    (getPool regWithClosedU "u" [] ⟨false, false⟩).2 "u" = none ∧
    (∀ u, u ≠ "u" →
      (getPool regWithClosedU "u" [] ⟨false, false⟩).2 u
        = regWithClosedU u) :=
  getPool_init_failure_never_registers regWithClosedU "u" [] ⟨false, false⟩
    (Or.inl rfl) (Or.inr ⟨⟨"u", [], true, 1, 0⟩, by decide, rfl⟩)

/-- C10: a pool entry whose closed flag is set rejects both
call_tool_async and list_tools_async with the RuntimeError
"MCP connection is closed", and the entry is unchanged — in particular
its count of work items scheduled on the loop does not grow: a closed
entry never accepts a new request. -/
theorem closed_pool_rejects_requests (p : Pool) (hc : p.closed = true)
    (name : String) (arguments : List (String × Value)) :
    Pool.callToolAsync p name arguments
      = (Except.error (PyError.runtimeError "MCP connection is closed"), p) ∧
    Pool.listToolsAsync p
      = (Except.error (PyError.runtimeError "MCP connection is closed"), p) := by
  constructor
  · simp [Pool.callToolAsync, hc]
  · simp [Pool.listToolsAsync, hc]

/-- Witness for C10 at a concrete closed entry. -/
theorem closed_pool_rejects_requests_witness :
    Pool.callToolAsync ⟨"u", [], true, 1, 0⟩ "t" []
      = (Except.error (PyError.runtimeError "MCP connection is closed"),
          ⟨"u", [], true, 1, 0⟩) ∧
    Pool.listToolsAsync ⟨"u", [], true, 1, 0⟩
      = (Except.error (PyError.runtimeError "MCP connection is closed"),
          ⟨"u", [], true, 1, 0⟩) :=
  closed_pool_rejects_requests ⟨"u", [], true, 1, 0⟩ rfl "t" []

end Vaul
